import Mathlib

/-!
Verification of the session-lifecycle core of the voice-driven
data-collection repository.

The development shallowly embeds:

* the Convex persistence functions of `src/convex/funcs.ts`
  (`get_form`, `create_form`, `update_form_status`,
  `add_transcript_chunk`, `get_transcripts`) over the `forms` /
  `transcripts` schema of `src/convex/schema.ts`;
* the webhook relay of the serverless handler file
  (`handleWebhook`, `handleFunctionCall`, `handleCallStarted`,
  `handleCallEnded`, `handleSpeechUpdate`, and the default-export
  `handler`), with the `ds160:*` Convex mutations it invokes — which
  are not present in the source tree — modelled from the spec.

Database documents are records, the store is an association list in
insertion order (Convex `_creationTime` order), auth identities are the
`subject` string of `ctx.auth.getUserIdentity()`, and fallible handlers
return `Except`.
-/

/-- The `status` union of the `forms` table:
`in_progress | completed | failed | abandoned`. -/
inductive Status where
  | in_progress
  | completed
  | failed
  | abandoned
deriving DecidableEq, Repr

/-- Whether a status is terminal (completed, failed or abandoned). -/
def Status.isTerminal : Status → Bool
  | .in_progress => false
  | _ => true

/-- A document of the `forms` table (`src/convex/schema.ts`): `callId`,
`status`, optional `completedAt`, optional `userId`. -/
structure Form where
  callId : String
  status : Status
  completedAt : Option String
  userId : Option String
deriving DecidableEq, Repr

/-- A document of the `transcripts` table: `formId`, `chunk`. -/
structure Transcript where
  formId : Nat
  chunk : String
deriving DecidableEq, Repr

/-- The document store: forms keyed by document id, transcript documents
in insertion order, and the next fresh document id. -/
structure DB where
  forms : List (Nat × Form)
  transcripts : List Transcript
  nextId : Nat
deriving DecidableEq, Repr

/-- The `ctx.db.get` lookup for the `forms` table. -/
def dbGet (db : DB) (formId : Nat) : Option Form :=
  (db.forms.find? (fun p => p.1 == formId)).map (fun p => p.2)

/-- The `ctx.db.patch` operation on the `forms` table. -/
def dbPatch (db : DB) (formId : Nat) (f : Form → Form) : DB :=
  { db with forms := db.forms.map (fun p => if p.1 == formId then (p.1, f p.2) else p) }

/-- The `get_form` query of `src/convex/funcs.ts`: requires an
authenticated identity, then returns the form only when it exists and its
`userId` equals the caller's subject. -/
def get_form (auth : Option String) (db : DB) (formId : Nat) : Except String Form :=
  match auth with
  | none => .error "User not authenticated"
  | some subject =>
    match dbGet db formId with
    | none => .error "Form not found or unauthorized"
    | some form =>
      if form.userId ≠ some subject then .error "Form not found or unauthorized"
      else .ok form

/-- The `create_form` mutation of `src/convex/funcs.ts`: requires an
authenticated identity, then unconditionally inserts a fresh form with
status `in_progress` owned by the caller. -/
def create_form (auth : Option String) (db : DB) (callId : String) : Except String DB :=
  match auth with
  | none => .error "User not authenticated"
  | some subject =>
    .ok { db with
            forms := db.forms ++ [(db.nextId, ⟨callId, .in_progress, none, some subject⟩)],
            nextId := db.nextId + 1 }

/-- The `update_form_status` mutation of `src/convex/funcs.ts`: after the
auth and ownership checks it patches `status` to the requested value, and
additionally sets `completedAt` exactly when the requested status is
`completed` (the conditional object spread). -/
def update_form_status (auth : Option String) (db : DB) (formId : Nat)
    (status : Status) (now : String) : Except String DB :=
  match auth with
  | none => .error "User not authenticated"
  | some subject =>
    match dbGet db formId with
    | none => .error "Form not found or unauthorized"
    | some form =>
      if form.userId ≠ some subject then .error "Form not found or unauthorized"
      else
        .ok (dbPatch db formId (fun f =>
          { f with
              status := status,
              completedAt := if status = .completed then some now else f.completedAt }))

/-- The `add_transcript_chunk` mutation of `src/convex/funcs.ts`: after
the auth and ownership checks it inserts one `transcripts` document. -/
def add_transcript_chunk (auth : Option String) (db : DB) (formId : Nat)
    (chunk : String) : Except String DB :=
  match auth with
  | none => .error "User not authenticated"
  | some subject =>
    match dbGet db formId with
    | none => .error "Form not found or unauthorized"
    | some form =>
      if form.userId ≠ some subject then .error "Form not found or unauthorized"
      else .ok { db with transcripts := db.transcripts ++ [⟨formId, chunk⟩] }

/-- The `get_transcripts` query of `src/convex/funcs.ts`: after the auth
and ownership checks it collects the transcript chunks of the form via the
`by_form_id` index (insertion order) and joins them with a newline. -/
def get_transcripts (auth : Option String) (db : DB) (formId : Nat) : Except String String :=
  match auth with
  | none => .error "User not authenticated"
  | some subject =>
    match dbGet db formId with
    | none => .error "Form not found or unauthorized"
    | some form =>
      if form.userId ≠ some subject then .error "Form not found or unauthorized"
      else
        .ok (String.intercalate "\n"
          ((db.transcripts.filter (fun t => t.formId == formId)).map (fun t => t.chunk)))

/-- A `ds160` collection record maintained by the session state tracker
behind the webhook relay: `callId`, `status`, `completedAt`, and the
per-section collected data (section name to payload). -/
structure Collection where
  callId : String
  status : Status
  completedAt : Option String
  data : List (String × String)
deriving DecidableEq, Repr

/-- State of the session tracker reached through the webhook relay:
collection records in insertion order, plus the diagnostics log
(`console.log` / `console.error` lines). -/
structure Tracker where
  sessions : List Collection
  diags : List String
deriving DecidableEq, Repr

/-- Lookup of a collection record by `callId`. -/
def sessionLookup (tr : Tracker) (callId : String) : Option Collection :=
  tr.sessions.find? (fun c => c.callId == callId)

/-- Whether `callId` has an existing session in state `in_progress`. -/
def isActiveSession (tr : Tracker) (callId : String) : Bool :=
  match sessionLookup tr callId with
  | some c => c.status == .in_progress
  | none => false

/-- Modelled from the spec: the Convex mutation `ds160:createCollection`
invoked by `handleCallStarted` is absent from the source tree; per the
spec's state table, call-started creates an `in_progress` record unless
the `callId` is already present, in which case the duplicate start is a
recorded no-op. -/
def createSession (tr : Tracker) (callId : String) : Tracker :=
  match sessionLookup tr callId with
  | some _ => { tr with diags := tr.diags ++ ["duplicate session: " ++ callId] }
  | none =>
    { tr with sessions := tr.sessions ++ [⟨callId, .in_progress, none, []⟩] }

/-- Modelled from the spec: the Convex mutation `ds160:updateCollectionData`
(mergeField) invoked by `saveDataToConvex` is absent from the source tree;
per the spec, when the session is absent or terminal the update fails with
a recorded "no such active session" diagnostic (not thrown), and otherwise
the section's payload is replaced wholesale, last write wins. -/
def mergeField (tr : Tracker) (callId sect payload : String) : Tracker :=
  if isActiveSession tr callId then
    { tr with
        sessions := tr.sessions.map (fun c =>
          if c.callId == callId then
            { c with data := c.data.filter (fun p => p.1 ≠ sect) ++ [(sect, payload)] }
          else c) }
  else { tr with diags := tr.diags ++ ["no such active session: " ++ callId] }

/-- Modelled from the spec: the Convex mutations `ds160:updateCollection`
and `ds160:completeCollection` invoked by `handleCallEnded` and
`completeDS160Collection` are absent from the source tree; per the spec,
finalize transitions an `in_progress` session to the terminal outcome and
sets `completedAt`, and is a recorded no-op when the session is absent or
already terminal. -/
def finalizeSession (tr : Tracker) (callId : String) (outcome : Status)
    (now : String) : Tracker :=
  if isActiveSession tr callId then
    { tr with
        sessions := tr.sessions.map (fun c =>
          if c.callId == callId then
            { c with status := outcome, completedAt := some now }
          else c) }
  else
    { tr with diags := tr.diags ++ ["finalize on missing or terminal session: " ++ callId] }

/-- The names of the section-saving tools recognised by
`handleFunctionCall` in the webhook relay. -/
def saveFunctionNames : List String :=
  ["save_personal_info", "save_passport_info", "save_travel_info",
   "save_contact_info", "save_family_info", "save_work_info",
   "save_security_info"]

/-- A webhook envelope as destructured by the relay: `type`, `call.id`,
`functionCall.name`, `functionCall.parameters`, `transcript`,
`call.duration`. -/
structure Envelope where
  type : String
  callId : String
  functionName : String
  parameters : String
  transcript : String
  duration : Nat
deriving DecidableEq, Repr

/-- The `handleFunctionCall` branch of the webhook relay: section-saving
tool names go through `mergeField`, `complete_collection` goes through the
finalize mutation, unknown tool names are logged; every branch answers
HTTP 200 (the 500 branch fires only when the underlying mutation throws,
which the spec-modelled tracker mutations never do — their errors are
absorbed as diagnostics). -/
def handleFunctionCall (tr : Tracker) (e : Envelope) (now : String) : Tracker × Nat :=
  if saveFunctionNames.contains e.functionName then
    (mergeField tr e.callId e.functionName e.parameters, 200)
  else if e.functionName == "complete_collection" then
    (finalizeSession tr e.callId .completed now, 200)
  else
    ({ tr with diags := tr.diags ++ ["Unknown function call: " ++ e.functionName] }, 200)

/-- The `handleCallStarted` branch of the webhook relay. -/
def handleCallStarted (tr : Tracker) (e : Envelope) : Tracker × Nat :=
  (createSession tr e.callId, 200)

/-- The `handleCallEnded` branch of the webhook relay: finalizes the
session as `completed`. -/
def handleCallEnded (tr : Tracker) (e : Envelope) (now : String) : Tracker × Nat :=
  (finalizeSession tr e.callId .completed now, 200)

/-- The `handleSpeechUpdate` branch of the webhook relay: logs the update
and performs no persistence operation. -/
def handleSpeechUpdate (tr : Tracker) (e : Envelope) : Tracker × Nat :=
  ({ tr with diags := tr.diags ++ ["Speech update: " ++ e.transcript] }, 200)

/-- The `handleWebhook` dispatcher of the webhook relay: the `switch` on
`payload.type`, with the default branch logging the unhandled type and
answering HTTP 200 with no tracker mutation. -/
def handleWebhook (tr : Tracker) (e : Envelope) (now : String) : Tracker × Nat :=
  if e.type == "function-call" then handleFunctionCall tr e now
  else if e.type == "call-ended" then handleCallEnded tr e now
  else if e.type == "call-started" then handleCallStarted tr e
  else if e.type == "speech-update" then handleSpeechUpdate tr e
  else ({ tr with diags := tr.diags ++ ["Unhandled webhook type: " ++ e.type] }, 200)

/-- The serverless default-export `handler`: any method other than POST is
answered with HTTP 405 before any webhook handling. -/
def handler (method : String) (tr : Tracker) (e : Envelope) (now : String) : Tracker × Nat :=
  if method ≠ "POST" then (tr, 405)
  else handleWebhook tr e now

/-- Sequencing a list of chunks through `add_transcript_chunk`, the shape
in which a webhook delivery sequence reaches the transcript store. -/
def addChunks (auth : Option String) (formId : Nat) : DB → List String → Except String DB
  | db, [] => .ok db
  | db, c :: cs =>
    (add_transcript_chunk auth db formId c).bind
      (fun db2 => addChunks auth formId db2 cs)

theorem find?_map_patch (l : List (Nat × Form)) (i : Nat) (f : Form → Form) :
    (l.map (fun p => if p.1 == i then (p.1, f p.2) else p)).find? (fun p => p.1 == i)
      = (l.find? (fun p => p.1 == i)).map (fun p => (p.1, f p.2)) := by
  induction l with
  | nil => rfl
  | cons a t ih =>
    by_cases h : a.1 = i
    · have hb : (a.1 == i) = true := by simp [h]
      simp only [List.map_cons, hb, if_true, List.find?_cons]
      rfl
    · have hb : (a.1 == i) = false := by simp [h]
      simp only [List.map_cons, hb, Bool.false_eq_true, if_false, List.find?_cons]
      exact ih

theorem dbGet_dbPatch (db : DB) (i : Nat) (f : Form → Form) :
    dbGet (dbPatch db i f) i = (dbGet db i).map f := by
  show ((db.forms.map fun p => if p.1 == i then (p.1, f p.2) else p).find?
      (fun p => p.1 == i)).map (fun p => p.2)
    = ((db.forms.find? (fun p => p.1 == i)).map (fun p => p.2)).map f
  rw [find?_map_patch]
  cases db.forms.find? (fun p => p.1 == i) <;> rfl

/-- C7: a stored form owned by one user is not readable by a different
authenticated user: `get_form` throws "Form not found or unauthorized"
rather than returning the record. -/
theorem get_form_ownership_enforced (db : DB) (formId : Nat) (form : Form)
    (owner caller : String) (hget : dbGet db formId = some form)
    (howner : form.userId = some owner) (hne : caller ≠ owner) :
    get_form (some caller) db formId = .error "Form not found or unauthorized" := by
  have h2 : owner ≠ caller := fun h => hne h.symm
  simp [get_form, hget, howner, h2]

/-- Witness for C7 at a concrete store: a form owned by "alice" queried by
"bob". -/
theorem get_form_ownership_enforced_witness :
    get_form (some "bob") ⟨[(0, ⟨"abc", .in_progress, none, some "alice"⟩)], [], 1⟩ 0
      = .error "Form not found or unauthorized" :=
  get_form_ownership_enforced _ 0 ⟨"abc", .in_progress, none, some "alice"⟩
    "alice" "bob" rfl rfl (by decide)

/-- C8: every exposed persistence function checks
`ctx.auth.getUserIdentity()` first and throws "User not authenticated"
before touching the database when the caller has no identity; in the
embedding the error result carries no successor state, so no read or write
happens. -/
theorem unauthenticated_calls_rejected (db : DB) (formId : Nat)
    (callId chunk now : String) (status : Status) :
    get_form none db formId = .error "User not authenticated" ∧
    create_form none db callId = .error "User not authenticated" ∧
    update_form_status none db formId status now = .error "User not authenticated" ∧
    add_transcript_chunk none db formId chunk = .error "User not authenticated" ∧
    get_transcripts none db formId = .error "User not authenticated" :=
  ⟨rfl, rfl, rfl, rfl, rfl⟩

/-- C9: a form whose optional `userId` is unset fails the ownership test
`form.userId !== userId.subject` for every authenticated caller, so
`get_form`, `update_form_status`, `add_transcript_chunk` and
`get_transcripts` all throw "Form not found or unauthorized" on it. -/
theorem ownerless_forms_locked (db : DB) (formId : Nat) (form : Form)
    (u chunk now : String) (status : Status)
    (hget : dbGet db formId = some form) (howner : form.userId = none) :
    get_form (some u) db formId = .error "Form not found or unauthorized" ∧
    update_form_status (some u) db formId status now
      = .error "Form not found or unauthorized" ∧
    add_transcript_chunk (some u) db formId chunk
      = .error "Form not found or unauthorized" ∧
    get_transcripts (some u) db formId = .error "Form not found or unauthorized" := by
  refine ⟨?_, ?_, ?_, ?_⟩ <;>
    simp [get_form, update_form_status, add_transcript_chunk, get_transcripts,
      hget, howner]

/-- Witness for C9 at a concrete store holding one ownerless form. -/
theorem ownerless_forms_locked_witness :
    get_form (some "u") ⟨[(0, ⟨"abc", .in_progress, none, none⟩)], [], 1⟩ 0
      = .error "Form not found or unauthorized" ∧
    update_form_status (some "u") ⟨[(0, ⟨"abc", .in_progress, none, none⟩)], [], 1⟩ 0
      .completed "T" = .error "Form not found or unauthorized" ∧
    add_transcript_chunk (some "u") ⟨[(0, ⟨"abc", .in_progress, none, none⟩)], [], 1⟩ 0
      "c" = .error "Form not found or unauthorized" ∧
    get_transcripts (some "u") ⟨[(0, ⟨"abc", .in_progress, none, none⟩)], [], 1⟩ 0
      = .error "Form not found or unauthorized" :=
  ownerless_forms_locked _ 0 ⟨"abc", .in_progress, none, none⟩ "u" "c" "T"
    .completed rfl rfl

/-- C10: the serverless entry point answers any non-POST request with HTTP
405 and leaves the tracker untouched: no webhook dispatch, no persistence
mutation. -/
theorem non_post_rejected (method : String) (tr : Tracker) (e : Envelope)
    (now : String) (h : method ≠ "POST") :
    handler method tr e now = (tr, 405) := by
  simp [handler, h]

/-- Witness for C10 at a concrete GET request. -/
theorem non_post_rejected_witness :
    handler "GET" ⟨[], []⟩ ⟨"call-started", "abc", "", "", "", 0⟩ "T"
      = (⟨[], []⟩, 405) :=
  non_post_rejected "GET" ⟨[], []⟩ ⟨"call-started", "abc", "", "", "", 0⟩ "T"
    (by decide)

/-- C1 counterexample: a form already in the terminal state `completed`
(with `completedAt = "T1"`) is mutated by a subsequent
`update_form_status` call from its owner — the status is overwritten to
`failed` instead of the mutation being rejected, because the handler has
no guard on the current status. -/
theorem update_form_status_mutates_terminal :
    (dbGet ⟨[(0, ⟨"abc", .completed, some "T1", some "u"⟩)], [], 1⟩ 0).map Form.status
        = some .completed ∧
    (update_form_status (some "u")
        ⟨[(0, ⟨"abc", .completed, some "T1", some "u"⟩)], [], 1⟩ 0 .failed "T2").map
      (fun db => (dbGet db 0).map Form.status) = .ok (some .failed) :=
  ⟨rfl, rfl⟩

/-- C1 amended: for a session record in a terminal state,
`update_form_status` called by the record's owner is applied, not
rejected: the stored status becomes the requested status, and
`completedAt` is overwritten with the current time when the requested
status is `completed` (otherwise retained); the only guards are
authentication and ownership. -/
theorem update_form_status_applied_on_terminal (db : DB) (formId : Nat)
    (form : Form) (u now : String) (status : Status)
    (hget : dbGet db formId = some form) (howner : form.userId = some u)
    (hterm : form.status.isTerminal = true) :
    ∃ db2, update_form_status (some u) db formId status now = .ok db2 ∧
      dbGet db2 formId = some { form with
        status := status,
        completedAt := if status = .completed then some now else form.completedAt } := by
  refine ⟨dbPatch db formId (fun f =>
    { f with status := status,
             completedAt := if status = .completed then some now else f.completedAt }),
    ?_, ?_⟩
  · simp [update_form_status, hget, howner]
  · rw [dbGet_dbPatch, hget]
    rfl

/-- Witness for the amended C1 at a concrete completed record overwritten
to failed. -/
theorem update_form_status_applied_on_terminal_witness :
    ∃ db2, update_form_status (some "u")
        ⟨[(0, ⟨"abc", .completed, some "T1", some "u"⟩)], [], 1⟩ 0 .failed "T2"
        = .ok db2 ∧
      dbGet db2 0 = some ⟨"abc", .failed, some "T1", some "u"⟩ :=
  update_form_status_applied_on_terminal _ 0
    ⟨"abc", .completed, some "T1", some "u"⟩ "u" "T2" .failed rfl rfl rfl

/-- C2 counterexample: `create_form` performs no duplicate check — two
authenticated calls with the same `callId` on an initially empty store
both succeed and leave two stored records with that `callId`, refuting
"exactly one stored record". -/
theorem create_form_not_idempotent :
    ((create_form (some "u") ⟨[], [], 0⟩ "abc").bind
        (fun db => create_form (some "u") db "abc")).map
      (fun db => (db.forms.filter (fun p => p.2.callId == "abc")).length)
      = .ok 2 :=
  rfl

/-- C2 amended: `create_form` unconditionally inserts a fresh
`in_progress` record owned by the caller on every authenticated
invocation; neither call errors, and two calls with the same `callId` grow
the number of records bearing that `callId` by exactly two. -/
theorem create_form_always_inserts (db : DB) (u callId : String) :
    ((create_form (some u) db callId).bind
        (fun db2 => create_form (some u) db2 callId)).map
      (fun db2 => (db2.forms.filter (fun p => p.2.callId == callId)).length)
      = .ok ((db.forms.filter (fun p => p.2.callId == callId)).length + 2) := by
  simp [create_form, Except.bind, Except.map, List.filter_append]

/-- C5 counterexample: a transition of an owned `in_progress` record into
the terminal state `failed` via `update_form_status` does not set
`completedAt` — the conditional spread only fires for `completed` — so the
record ends terminal with `completedAt` still unset. -/
theorem update_form_status_failed_no_timestamp :
    (update_form_status (some "u")
        ⟨[(0, ⟨"abc", .in_progress, none, some "u"⟩)], [], 1⟩ 0 .failed "T").map
      (fun db => (dbGet db 0).map (fun f => (f.status, f.completedAt)))
      = .ok (some (.failed, none)) :=
  rfl

/-- C5 amended: `update_form_status` sets `completedAt` to the current
time exactly when the requested status is `completed`; transitions to
`failed` or `abandoned` (and patches to `in_progress`) leave the prior
`completedAt` value unchanged. -/
theorem completedAt_only_on_completed (db : DB) (formId : Nat) (form : Form)
    (u now : String) (status : Status)
    (hget : dbGet db formId = some form) (howner : form.userId = some u) :
    ∃ db2, update_form_status (some u) db formId status now = .ok db2 ∧
      (dbGet db2 formId).map Form.completedAt
        = some (if status = .completed then some now else form.completedAt) := by
  refine ⟨dbPatch db formId (fun f =>
    { f with status := status,
             completedAt := if status = .completed then some now else f.completedAt }),
    ?_, ?_⟩
  · simp [update_form_status, hget, howner]
  · rw [dbGet_dbPatch, hget]
    rfl

/-- Witness for the amended C5: a completed transition stamps
`completedAt` while an abandoned transition leaves it unset; stated and
proved at the completed instance, the abandoned instance being the C5
counterexample's shape. -/
theorem completedAt_only_on_completed_witness :
    ∃ db2, update_form_status (some "u")
        ⟨[(0, ⟨"abc", .in_progress, none, some "u"⟩)], [], 1⟩ 0 .completed "T"
        = .ok db2 ∧
      (dbGet db2 0).map Form.completedAt = some (some "T") :=
  completedAt_only_on_completed _ 0 ⟨"abc", .in_progress, none, some "u"⟩
    "u" "T" .completed rfl rfl

/-- C3: a `function-call` webhook for a `callId` with no in_progress
session (missing or terminal) is answered with HTTP 200, leaves every
session record unchanged, and appends a diagnostic to the log; the
spec-modelled tracker mutations absorb the stale update rather than
throwing, so the relay's 500 branch is never reached. -/
theorem stale_function_call_acknowledged (tr : Tracker) (e : Envelope)
    (now : String) (htype : e.type = "function-call")
    (hstale : isActiveSession tr e.callId = false) :
    (handleWebhook tr e now).2 = 200 ∧
    (handleWebhook tr e now).1.sessions = tr.sessions ∧
    tr.diags.length < (handleWebhook tr e now).1.diags.length := by
  have hw : handleWebhook tr e now = handleFunctionCall tr e now := by
    simp [handleWebhook, htype]
  rw [hw]
  unfold handleFunctionCall
  by_cases hsave : saveFunctionNames.contains e.functionName = true
  · rw [if_pos hsave]
    unfold mergeField
    rw [hstale]
    simp only [Bool.false_eq_true, if_false]
    exact ⟨trivial, trivial, by simp⟩
  · rw [if_neg hsave]
    by_cases hcomp : (e.functionName == "complete_collection") = true
    · rw [if_pos hcomp]
      unfold finalizeSession
      rw [hstale]
      simp only [Bool.false_eq_true, if_false]
      exact ⟨trivial, trivial, by simp⟩
    · rw [if_neg hcomp]
      exact ⟨rfl, rfl, by simp⟩

/-- Witness for C3: a `save_personal_info` function call for a never
started callId against an empty tracker. -/
theorem stale_function_call_acknowledged_witness :
    (handleWebhook ⟨[], []⟩
        ⟨"function-call", "xyz", "save_personal_info", "payload", "", 0⟩ "T").2 = 200 ∧
    (handleWebhook ⟨[], []⟩
        ⟨"function-call", "xyz", "save_personal_info", "payload", "", 0⟩ "T").1.sessions
      = (⟨[], []⟩ : Tracker).sessions ∧
    (⟨[], []⟩ : Tracker).diags.length
      < (handleWebhook ⟨[], []⟩
          ⟨"function-call", "xyz", "save_personal_info", "payload", "", 0⟩ "T").1.diags.length :=
  stale_function_call_acknowledged ⟨[], []⟩
    ⟨"function-call", "xyz", "save_personal_info", "payload", "", 0⟩ "T" rfl rfl

/-- C4: an envelope whose `type` matches none of the four recognized event
types falls to the dispatcher's default branch: HTTP 200 with every
session record untouched (no persistence operation runs). -/
theorem unknown_event_tolerated (tr : Tracker) (e : Envelope) (now : String)
    (h1 : e.type ≠ "function-call") (h2 : e.type ≠ "call-ended")
    (h3 : e.type ≠ "call-started") (h4 : e.type ≠ "speech-update") :
    (handleWebhook tr e now).2 = 200 ∧
    (handleWebhook tr e now).1.sessions = tr.sessions := by
  simp [handleWebhook, h1, h2, h3, h4]

/-- Witness for C4: an envelope of type "weird-event" against a tracker
holding one session. -/
theorem unknown_event_tolerated_witness :
    (handleWebhook ⟨[⟨"abc", .in_progress, none, []⟩], []⟩
        ⟨"weird-event", "abc", "", "", "", 0⟩ "T").2 = 200 ∧
    (handleWebhook ⟨[⟨"abc", .in_progress, none, []⟩], []⟩
        ⟨"weird-event", "abc", "", "", "", 0⟩ "T").1.sessions
      = (⟨[⟨"abc", .in_progress, none, []⟩], []⟩ : Tracker).sessions :=
  unknown_event_tolerated ⟨[⟨"abc", .in_progress, none, []⟩], []⟩
    ⟨"weird-event", "abc", "", "", "", 0⟩ "T"
    (by decide) (by decide) (by decide) (by decide)

theorem add_transcript_chunk_ok (db : DB) (formId : Nat) (form : Form)
    (u c : String) (hget : dbGet db formId = some form)
    (howner : form.userId = some u) :
    add_transcript_chunk (some u) db formId c
      = .ok ⟨db.forms, db.transcripts ++ [⟨formId, c⟩], db.nextId⟩ := by
  simp [add_transcript_chunk, hget, howner]

theorem addChunks_ok (formId : Nat) (form : Form) (u : String)
    (howner : form.userId = some u) (chunks : List String) :
    ∀ db : DB, dbGet db formId = some form →
      addChunks (some u) formId db chunks
        = .ok ⟨db.forms, db.transcripts ++ chunks.map (fun c => ⟨formId, c⟩),
               db.nextId⟩ := by
  induction chunks with
  | nil =>
    intro db hget
    simp [addChunks]
  | cons c cs ih =>
    intro db hget
    rw [addChunks, add_transcript_chunk_ok db formId form u c hget howner]
    show addChunks (some u) formId
        ⟨db.forms, db.transcripts ++ [Transcript.mk formId c], db.nextId⟩ cs = _
    rw [ih ⟨db.forms, db.transcripts ++ [Transcript.mk formId c], db.nextId⟩ hget]
    simp

theorem get_transcripts_ok (db : DB) (formId : Nat) (form : Form) (u : String)
    (hget : dbGet db formId = some form) (howner : form.userId = some u) :
    get_transcripts (some u) db formId
      = .ok (String.intercalate "\n"
          ((db.transcripts.filter (fun t => t.formId == formId)).map
            (fun t => t.chunk))) := by
  simp [get_transcripts, hget, howner]

theorem filter_map_chunks (formId : Nat) (chunks : List String) :
    ((chunks.map (fun c => (⟨formId, c⟩ : Transcript))).filter
        (fun t => t.formId == formId)).map (fun t => t.chunk) = chunks := by
  induction chunks with
  | nil => rfl
  | cons c cs ih => simp [List.filter_cons, ih]

/-- C6 counterexample: two chunks "a" and "b" appended in order
reconstruct to "a\nb" — `get_transcripts` joins with a newline separator —
which differs from the plain concatenation "ab" the claim states. -/
theorem transcript_join_not_concat :
    ((add_transcript_chunk (some "u")
          ⟨[(0, ⟨"abc", .in_progress, none, some "u"⟩)], [], 1⟩ 0 "a").bind
        (fun db => (add_transcript_chunk (some "u") db 0 "b").bind
          (fun db2 => get_transcripts (some "u") db2 0)))
      = .ok "a\nb" ∧ "a\nb" ≠ "a" ++ "b" :=
  ⟨rfl, by decide⟩

/-- C6 amended: for a form with no prior transcript chunks, appending
chunks [c1, ..., cn] in order via `add_transcript_chunk` only ever appends
documents (every prior transcript document survives unchanged), and
`get_transcripts` reconstructs exactly those chunks in insertion order
joined with newline separators. -/
theorem transcript_roundtrip (db : DB) (formId : Nat) (form : Form)
    (u : String) (chunks : List String)
    (hget : dbGet db formId = some form) (howner : form.userId = some u)
    (hfresh : db.transcripts.filter (fun t => t.formId == formId) = []) :
    (addChunks (some u) formId db chunks).map DB.transcripts
        = .ok (db.transcripts ++ chunks.map (fun c => ⟨formId, c⟩)) ∧
    (addChunks (some u) formId db chunks).bind
        (fun db2 => get_transcripts (some u) db2 formId)
      = .ok (String.intercalate "\n" chunks) := by
  rw [addChunks_ok formId form u howner chunks db hget]
  refine ⟨rfl, ?_⟩
  show get_transcripts (some u)
      ⟨db.forms, db.transcripts ++ chunks.map (fun c => Transcript.mk formId c),
        db.nextId⟩ formId = _
  rw [get_transcripts_ok
    ⟨db.forms, db.transcripts ++ chunks.map (fun c => Transcript.mk formId c),
      db.nextId⟩ formId form u hget howner]
  show Except.ok (String.intercalate "\n"
      (((db.transcripts ++ chunks.map (fun c => Transcript.mk formId c)).filter
          (fun t => t.formId == formId)).map (fun t => t.chunk)))
    = Except.ok (String.intercalate "\n" chunks)
  rw [List.filter_append, hfresh, List.nil_append, filter_map_chunks]

/-- Witness for the amended C6: chunks ["a", "b"] on a fresh store
reconstruct to "a\nb" and the store ends with exactly those two documents. -/
theorem transcript_roundtrip_witness :
    (addChunks (some "u") 0
          ⟨[(0, ⟨"abc", .in_progress, none, some "u"⟩)], [], 1⟩ ["a", "b"]).map
        DB.transcripts = .ok [⟨0, "a"⟩, ⟨0, "b"⟩] ∧
    (addChunks (some "u") 0
          ⟨[(0, ⟨"abc", .in_progress, none, some "u"⟩)], [], 1⟩ ["a", "b"]).bind
        (fun db2 => get_transcripts (some "u") db2 0) = .ok "a\nb" :=
  transcript_roundtrip ⟨[(0, ⟨"abc", .in_progress, none, some "u"⟩)], [], 1⟩ 0
    ⟨"abc", .in_progress, none, some "u"⟩ "u" ["a", "b"] rfl rfl rfl
